import Mathlib

/-!
Shallow embedding of the hospital-discharge ETL pipeline in
src/sprint_12_saude_chile_rev_1.py, and proofs about its claims.

Cells of a loaded table are strings, integers, or the missing value a CSV
reader produces for empty fields.  A table (pandas DataFrame) is a list of
column names together with a list of rows.  The relational store is a list
of named tables whose rows pair column names with cells.  The threshold of
the preprocessor is a rational number; the Python source uses the float
0.5, whose products with small column counts are exact, so rational
arithmetic agrees with the source on every value the program uses.
-/

/-- One cell of a loaded table. -/
inductive Cell where
  | str : String → Cell
  | int : Int → Cell
  | nan : Cell
deriving DecidableEq

/-- A pandas DataFrame: column names and rows of cells. -/
structure DataFrame where
  columns : List String
  rows : List (List Cell)
deriving DecidableEq

/-- pandas df.empty: true when either axis has length zero. -/
def DataFrame.empty (df : DataFrame) : Bool :=
  df.rows.isEmpty || df.columns.isEmpty

/-- The empty DataFrame returned by load_data on failure. -/
def emptyFrame : DataFrame := ⟨[], []⟩

/-- Numeric value of a decimal digit character. -/
def charDigitVal (c : Char) : Nat := c.toNat - 48

/-!
Year extraction (source: extract_year_from_path, lines 57-71).
The primary rule is the regular expression search for four digits directly
followed by ".csv" at the end of the path; with the end anchor the match,
when it exists, is exactly the last eight characters.
-/

/-- re.search of four digits followed by ".csv" at the end of the path:
returns the four-digit number when the last eight characters are
d1 d2 d3 d4 '.' 'c' 's' 'v' with each di a digit. -/
def match_year_csv (s : List Char) : Option Int :=
  match s.reverse with
  | e8 :: e7 :: e6 :: e5 :: e1 :: e2 :: e3 :: e4 :: _ =>
    if e8 == 'v' && e7 == 's' && e6 == 'c' && e5 == '.' &&
        e1.isDigit && e2.isDigit && e3.isDigit && e4.isDigit then
      some ((1000 * charDigitVal e4 + 100 * charDigitVal e3 +
             10 * charDigitVal e2 + charDigitVal e1 : Nat) : Int)
    else none
  | _ => none

/-- Whitespace accepted by Python int() around a numeral (ASCII part). -/
def isPySpace (c : Char) : Bool :=
  c == ' ' || c == '\t' || c == '\n' || c == '\r' || c == '\x0b' || c == '\x0c'

/-- Digits of a Python int literal after its first digit: plain digits with
single underscores allowed between digits. -/
def pyDigitsRest (acc : Nat) : List Char → Option Nat
  | [] => some acc
  | '_' :: c :: rest =>
    if c.isDigit then pyDigitsRest (acc * 10 + charDigitVal c) rest else none
  | c :: rest =>
    if c.isDigit then pyDigitsRest (acc * 10 + charDigitVal c) rest else none

/-- Python int(string) on ASCII input: optional surrounding whitespace, an
optional sign, then a nonempty digit string with single underscores
permitted between digits.  Returns no value where int() raises ValueError. -/
def py_int_parse (s : List Char) : Option Int :=
  let t := ((s.dropWhile isPySpace).reverse.dropWhile isPySpace).reverse
  match t with
  | '+' :: c :: rest =>
    if c.isDigit then (pyDigitsRest (charDigitVal c) rest).map Int.ofNat else none
  | '-' :: c :: rest =>
    if c.isDigit then (pyDigitsRest (charDigitVal c) rest).map (fun n => -(n : Int)) else none
  | c :: rest =>
    if c.isDigit then (pyDigitsRest (charDigitVal c) rest).map Int.ofNat else none
  | [] => none

/-- The fallback of extract_year_from_path: last path segment, part before
the first dot, last four characters. -/
def fallback_chars (s : List Char) : List Char :=
  let lastSeg := (List.splitOn '/' s).getLastD []
  let stripped := (List.splitOn '.' lastSeg).headD []
  stripped.drop (stripped.length - 4)

/-- extract_year_from_path: the regular-expression rule first, then the
fallback parse; returns no value when both fail. -/
def extract_year_from_path (file_path : String) : Option Int :=
  match match_year_csv file_path.data with
  | some y => some y
  | none => py_int_parse (fallback_chars file_path.data)

/-!
Preprocessing (source: preprocess_data, lines 146-195).
-/

/-- The explicit rename table of preprocess_data. -/
def column_mapping : List (String × String) :=
  [("PERTE", "PERTENENCIA_ESTABLECIMIENTO_SALUD"),
   ("SEXO_PERSONA", "SEXO"),
   ("EDAD_GRUPO", "GRUPO_EDAD"),
   ("GRUPOS_ETAREOS", "ETNIA"),
   ("GLOSA_PAIS_ORIGEN", "GLOSA_PAIS_ORIGEN"),
   ("COMUNA_RESIDENCIA", "COMUNA_RESIDENCIA"),
   ("GLOSA_COMUNA_RESIDENCIA", "GLOSA_COMUNA_RESIDENCIA"),
   ("REGION_RESIDENCIA", "REGION_RESIDENCIA"),
   ("GLOSA_REGION_RESIDENCIA", "GLOSA_REGION_RESIDENCIA"),
   ("PREVISION", "PREVISION"),
   ("GLOSA_PREVISION", "GLOSA_PREVISION"),
   ("ANO_EGRESO", "ANO_EGRESO"),
   ("DIAG1", "DIAG1"),
   ("DIAG2", "DIAG2"),
   ("DIAS_ESTADIA", "DIAS_ESTADA"),
   ("CONDICION_EGRESO", "CONDICION_EGRESO"),
   ("INTERV_Q", "INTERV_Q"),
   ("PROCED", "PROCED")]

/-- Renaming of a single column name by the mapping; names not in the
table pass through unchanged (pandas rename ignores absent keys, so
restricting the mapping to present columns does not change the result). -/
def renameColumn (c : String) : String :=
  match column_mapping.find? (fun p => p.1 == c) with
  | some p => p.2
  | none => c

/-- The four columns coerced to integers. -/
def int_columns_to_convert : List String :=
  ["COMUNA_RESIDENCIA", "REGION_RESIDENCIA", "ANO_EGRESO", "DIAS_ESTADA"]

/-- pd.to_numeric on one string, composed with astype(int): optional
surrounding whitespace, optional sign, decimal digits with an optional
fractional part; the fractional part is discarded by the integer cast,
which truncates toward zero.  Exotic numeric spellings (exponents,
infinities) are outside this model. -/
def parse_numeric_str (s : List Char) : Option Int :=
  let t := ((s.dropWhile isPySpace).reverse.dropWhile isPySpace).reverse
  let su : List Char × Int :=
    match t with
    | '+' :: r => (r, 1)
    | '-' :: r => (r, -1)
    | r => (r, 1)
  let ip := su.1.takeWhile Char.isDigit
  let rest := su.1.dropWhile Char.isDigit
  let ok : Bool :=
    match rest with
    | [] => !ip.isEmpty
    | '.' :: fp => fp.all Char.isDigit && !(ip.isEmpty && fp.isEmpty)
    | _ => false
  if ok then some (su.2 * (ip.foldl (fun a c => a * 10 + charDigitVal c) 0 : Nat)) else none

/-- pd.to_numeric with errors coerce on one cell: integers pass through,
missing values stay missing, strings are parsed. -/
def cellNumeric : Cell → Option Int
  | Cell.int n => some n
  | Cell.nan => none
  | Cell.str s => parse_numeric_str s.data

/-- to_numeric then fillna(0) then astype(int) on one cell. -/
def coerceCell (c : Cell) : Cell :=
  match cellNumeric c with
  | some n => Cell.int n
  | none => Cell.int 0

/-- Integer coercion of one row: a cell is coerced exactly when its
(renamed) column is one of the four designated columns. -/
def coerceRow : List String → List Cell → List Cell
  | _, [] => []
  | [], _ :: _ => []
  | c :: cs, x :: xs =>
    (if int_columns_to_convert.contains c then coerceCell x else x) :: coerceRow cs xs

/-- Number of sentinel cells of a row: cells equal to the string star. -/
def countStars (row : List Cell) : Nat :=
  row.countP (fun c => c == Cell.str "*")

/-- allowed_stars = int(num_columns * threshold): truncation toward zero
of the exact product, computed on the rational threshold. -/
def allowed_stars (num_columns : Nat) (threshold : ℚ) : Int :=
  Int.tdiv (threshold.num * num_columns) threshold.den

/-- The row filter of preprocess_data: keep a row when its sentinel count
does not exceed allowed_stars. -/
def keepRow (num_columns : Nat) (threshold : ℚ) (row : List Cell) : Bool :=
  decide ((countStars row : Int) ≤ allowed_stars num_columns threshold)

/-- The default threshold of preprocess_data (the float 0.5 in the source). -/
def defaultThreshold : ℚ := mkRat 1 2

/-- preprocess_data: an empty frame is returned unchanged; otherwise rows
dominated by sentinels are dropped, columns are renamed, and the four
designated columns are coerced to integers. -/
def preprocess_data (df : DataFrame) (threshold : ℚ) : DataFrame :=
  if df.empty then df
  else
    let num_columns := df.columns.length
    let kept := df.rows.filter (keepRow num_columns threshold)
    let newCols := df.columns.map renameColumn
    ⟨newCols, kept.map (coerceRow newCols)⟩

/-!
Relational store (source: data_already_exist lines 85-109,
save_to_database lines 250-267, driver lines 305-373).
-/

/-- Reasons a query raises: the missing-table OperationalError, any other
OperationalError, or any other exception. -/
inductive QueryError where
  | noSuchTable
  | operational
  | unexpected
deriving DecidableEq

/-- A stored row: column names paired with cells. -/
abbrev DbRow := List (String × Cell)

/-- The file-backed store: named tables with their rows. -/
abbrev DbTables := List (String × List DbRow)

/-- Rows of a named table, when the table exists. -/
def findTable (db : DbTables) (table_name : String) : Option (List DbRow) :=
  (db.find? (fun p => p.1 == table_name)).map (fun p => p.2)

/-- SQL predicate ANO_EGRESO = year on one stored row. -/
def rowYearIs (r : DbRow) (year : Int) : Bool :=
  match r.find? (fun p => p.1 == "ANO_EGRESO") with
  | some p => p.2 == Cell.int year
  | none => false

/-- Append rows to a named table, creating the table when absent. -/
def appendRows (db : DbTables) (table_name : String) (rs : List DbRow) : DbTables :=
  match db.find? (fun p => p.1 == table_name) with
  | some _ => db.map (fun p => if p.1 == table_name then (p.1, p.2 ++ rs) else p)
  | none => db ++ [(table_name, rs)]

/-- Number of rows of the named table whose ANO_EGRESO equals the year. -/
def countYear (db : DbTables) (table_name : String) (year : Int) : Nat :=
  match findTable db table_name with
  | some rs => rs.countP (fun r => rowYearIs r year)
  | none => 0

/-- The SELECT 1 ... WHERE ANO_EGRESO = :year LIMIT 1 query: an injected
fault raises, a missing table raises the missing-table error, and
otherwise the query reports whether some row carries the year. -/
def execExistsQuery (db : DbTables) (fault : Option QueryError)
    (table_name : String) (year : Int) : Except QueryError Bool :=
  match fault with
  | some e => Except.error e
  | none =>
    match findTable db table_name with
    | none => Except.error QueryError.noSuchTable
    | some rs => Except.ok (rs.any (fun r => rowYearIs r year))

/-- data_already_exist: false when the year is absent; otherwise the query
result, with every raised error swallowed into false. -/
def data_already_exist (db : DbTables) (fault : Option QueryError)
    (table_name : String) (year : Option Int) : Bool :=
  match year with
  | none => false
  | some y =>
    match execExistsQuery db fault table_name y with
    | Except.ok b => b
    | Except.error _ => false

/-- Outcome of reading a CSV file: parsed content, a missing file, or any
other read error. -/
inductive ReadOutcome where
  | content : DataFrame → ReadOutcome
  | notFound
  | readError

/-- load_data over a filesystem oracle: the parsed frame on success, the
empty frame on a missing file or any other read error. -/
def load_data (fs : String → ReadOutcome) (file_path : String) : DataFrame :=
  match fs file_path with
  | ReadOutcome.content df => df
  | ReadOutcome.notFound => emptyFrame
  | ReadOutcome.readError => emptyFrame

/-- save_to_database: an empty frame is ignored; otherwise all rows are
appended to the named table, pairing each cell with its column name. -/
def save_to_database (df : DataFrame) (db : DbTables) (table_name : String) : DbTables :=
  if df.empty then db
  else appendRows db table_name (df.rows.map (fun r => df.columns.zip r))

/-!
Driver (source: the main block, lines 305-373).
-/

/-- Environment of a run: the data directory, the filesystem, and a
per-file fault oracle for the existence query. -/
structure Env where
  dataDir : String
  fs : String → ReadOutcome
  fault : String → Option QueryError

/-- What one file's processing step did: the resulting store and whether
the file was loaded, preprocessed, and saved. -/
structure StepResult where
  db : DbTables
  loaded : Bool
  preprocessed : Bool
  saved : Bool
deriving DecidableEq

/-- The driver's filename filter re.match of EGRE_DATOS_ABIERTOS_ then
four digits then ".csv", anchored at both ends. -/
def matchesPattern (f : String) : Bool :=
  let cs := f.data
  cs.length == 28 && cs.take 20 == "EGRE_DATOS_ABIERTOS_".data
    && ((cs.drop 20).take 4).all Char.isDigit && cs.drop 24 == ".csv".data

/-- Processing of one matching file by the driver: extract the year, skip
when extraction fails or the year already exists, otherwise load,
preprocess, and save nonempty results. -/
def processFile (env : Env) (table_name : String) (db : DbTables) (filename : String) :
    StepResult :=
  let file_path := env.dataDir ++ "/" ++ filename
  match extract_year_from_path file_path with
  | none => ⟨db, false, false, false⟩
  | some y =>
    if data_already_exist db (env.fault filename) table_name (some y) then
      ⟨db, false, false, false⟩
    else
      let raw := load_data env.fs file_path
      if raw.empty then ⟨db, true, false, false⟩
      else
        let processed := preprocess_data raw defaultThreshold
        if processed.empty then ⟨db, true, true, false⟩
        else ⟨save_to_database processed db table_name, true, true, true⟩

/-- The driver loop over a directory listing: non-matching names are
skipped, matching names are processed in order; the flag records whether
any file was saved. -/
def runDriver (env : Env) (table_name : String) (db : DbTables) (files : List String) :
    DbTables × Bool :=
  files.foldl
    (fun acc f =>
      if matchesPattern f then
        let r := processFile env table_name acc.1 f
        (r.db, acc.2 || r.saved)
      else acc)
    (db, false)

/-!
Concrete inputs used by witnesses and counterexamples.
-/

/-- A two-column batch: one row dominated by sentinels, one boundary row. -/
def dfC2 : DataFrame :=
  ⟨["A", "B"], [[Cell.str "*", Cell.str "*"], [Cell.str "*", Cell.str "x"]]⟩

/-- A batch with a target column holding a non-numeric cell. -/
def dfC3 : DataFrame :=
  ⟨["ANO_EGRESO", "X"], [[Cell.str "abc", Cell.str "v"]]⟩

/-- A batch whose DIAS_ESTADIA column is renamed and coerced. -/
def dfC10 : DataFrame :=
  ⟨["DIAS_ESTADIA", "Y"], [[Cell.str "7", Cell.str "keep"]]⟩

/-- A store already holding one row for year 2019. -/
def dbC1 : DbTables := [("egresos_pacientes", [[("ANO_EGRESO", Cell.int 2019)]])]

/-- A run environment whose 2018 file parses to a single row that itself
carries ANO_EGRESO 2019. -/
def envC1 : Env :=
  ⟨"data",
   fun p =>
     if p == "data/EGRE_DATOS_ABIERTOS_2018.csv" then
       ReadOutcome.content ⟨["ANO_EGRESO"], [[Cell.str "2019"]]⟩
     else ReadOutcome.notFound,
   fun _ => none⟩

/-- The directory listing of that run. -/
def filesC1 : List String :=
  ["EGRE_DATOS_ABIERTOS_2019.csv", "EGRE_DATOS_ABIERTOS_2018.csv"]

/-!
Helper lemmas.
-/

/-- Membership gives containment for string lists. -/
lemma contains_of_mem {a : String} {l : List String} (h : a ∈ l) : l.contains a = true :=
  List.elem_iff.mpr h

/-- Non-membership gives non-containment for string lists. -/
lemma not_contains_of_not_mem {a : String} {l : List String} (h : a ∉ l) :
    l.contains a = false := by
  cases hc : l.contains a with
  | false => rfl
  | true => exact absurd (List.elem_iff.mp hc) h

/-- Length of a coerced row: the zip of columns and cells. -/
lemma coerceRow_length (cs : List String) (r : List Cell) :
    (coerceRow cs r).length = min cs.length r.length := by
  induction cs generalizing r with
  | nil => cases r <;> simp [coerceRow]
  | cons c cs ih =>
    cases r with
    | nil => simp [coerceRow]
    | cons x xs =>
      simp only [coerceRow, List.length_cons, ih]
      omega

/-- A coerced row, cell by cell: the cell is coerced exactly when its
column name is one of the four designated columns. -/
lemma coerceRow_getD (cs : List String) (r : List Cell) (j : Nat)
    (h1 : j < cs.length) (h2 : j < r.length) :
    (coerceRow cs r).getD j Cell.nan =
      if int_columns_to_convert.contains (cs.getD j "") then coerceCell (r.getD j Cell.nan)
      else r.getD j Cell.nan := by
  induction cs generalizing r j with
  | nil => exact absurd h1 (by simp)
  | cons c cs ih =>
    cases r with
    | nil => exact absurd h2 (by simp)
    | cons x xs =>
      cases j with
      | zero => simp [coerceRow]
      | succ j =>
        simp only [coerceRow, List.getD_cons_succ]
        exact ih xs j (by simpa using h1) (by simpa using h2)

/-- For a nonnegative threshold the truncation in allowed_stars equals the
floor of the exact product, as the specification states it. -/
lemma allowed_stars_eq_floor (n : Nat) (t : ℚ) (ht : 0 ≤ t) :
    allowed_stars n t = ⌊(n : ℚ) * t⌋ := by
  have hnum : 0 ≤ t.num := Rat.num_nonneg.mpr ht
  have h1 : (n : ℚ) * t = ((t.num * n : ℤ) : ℚ) / ((t.den : ℕ) : ℚ) := by
    conv_lhs => rw [← Rat.num_div_den t]
    push_cast
    ring
  rw [allowed_stars, h1, Rat.floor_intCast_div_natCast]
  exact Int.tdiv_eq_ediv (mul_nonneg hnum (Int.natCast_nonneg n)) (Int.natCast_nonneg t.den)

/-- On a batch with at least one row and one column, preprocess_data
filters with keepRow, renames the columns, and coerces the kept rows. -/
lemma preprocess_data_not_empty (df : DataFrame) (t : ℚ)
    (hr : df.rows ≠ []) (hc : df.columns ≠ []) :
    preprocess_data df t =
      ⟨df.columns.map renameColumn,
       (df.rows.filter (keepRow df.columns.length t)).map
         (coerceRow (df.columns.map renameColumn))⟩ := by
  have h : df.empty = false := by
    simp [DataFrame.empty, List.isEmpty_iff, hr, hc]
  simp [preprocess_data, h]

/-- Every pair of the rename table has a right component the mapping
leaves unchanged. -/
lemma renameColumn_value_fixed : ∀ p ∈ column_mapping, renameColumn p.2 = p.2 := by decide

/-- Renaming one column name twice is the same as renaming it once. -/
lemma renameColumn_idem (c : String) : renameColumn (renameColumn c) = renameColumn c := by
  cases h : column_mapping.find? (fun p => p.1 == c) with
  | none =>
    have hc : renameColumn c = c := by simp only [renameColumn, h]
    rw [hc, hc]
  | some p =>
    have hc : renameColumn c = p.2 := by simp only [renameColumn, h]
    rw [hc]
    exact renameColumn_value_fixed p (List.mem_of_find?_eq_some h)

/-!
Claims.
-/

/-- C4: for every file path whose name matches
EGRE_DATOS_ABIERTOS_YYYY.csv with YYYY four digits, extract_year_from_path
returns exactly the integer YYYY. -/
theorem spec_C4 (dir : String) (d1 d2 d3 d4 : Char)
    (h1 : d1.isDigit = true) (h2 : d2.isDigit = true)
    (h3 : d3.isDigit = true) (h4 : d4.isDigit = true) :
    extract_year_from_path
        (dir ++ "EGRE_DATOS_ABIERTOS_" ++ String.mk [d1, d2, d3, d4] ++ ".csv")
      = some ((1000 * charDigitVal d1 + 100 * charDigitVal d2 +
               10 * charDigitVal d3 + charDigitVal d4 : Nat) : Int) := by
  have hdata : (dir ++ "EGRE_DATOS_ABIERTOS_" ++ String.mk [d1, d2, d3, d4] ++ ".csv").data
      = dir.data ++ ("EGRE_DATOS_ABIERTOS_".data ++ [d1, d2, d3, d4] ++ ['.', 'c', 's', 'v']) := by
    simp [String.data_append]
  unfold extract_year_from_path
  rw [hdata]
  unfold match_year_csv
  simp [List.reverse_append, h1, h2, h3, h4]

/-- Witness for C4 at the file EGRE_DATOS_ABIERTOS_2019.csv inside data. -/
theorem spec_C4_witness :
    ('2'.isDigit = true ∧ '0'.isDigit = true ∧ '1'.isDigit = true ∧ '9'.isDigit = true)
    ∧ extract_year_from_path
        ("data/" ++ "EGRE_DATOS_ABIERTOS_" ++ String.mk ['2', '0', '1', '9'] ++ ".csv")
      = some 2019 :=
  ⟨by decide, spec_C4 "data/" '2' '0' '1' '9' rfl rfl rfl rfl⟩

/-- C5 counterexample: the path data_2018.txt does not end in four digits
followed by ".csv", yet extract_year_from_path returns 2018 through the
fallback, not the failure signal. -/
theorem spec_C5_counterexample :
    match_year_csv "data_2018.txt".data = none
    ∧ extract_year_from_path "data_2018.txt" = some 2018 := by decide

/-- C5 amended: extract_year_from_path is a total function, and it returns
the failure signal exactly when the suffix rule fails and the fallback
parse of the last four characters of the extension-stripped last path
segment fails as well. -/
theorem spec_C5_amended (file_path : String) :
    extract_year_from_path file_path = none ↔
      (match_year_csv file_path.data = none
        ∧ py_int_parse (fallback_chars file_path.data) = none) := by
  unfold extract_year_from_path
  cases h : match_year_csv file_path.data <;> simp [h]

/-- C6: data_already_exist is false for an absent year; with no fault it
is true exactly when the named table exists and holds a row whose
ANO_EGRESO equals the year; every raised error, the missing table
included, yields false instead of propagating. -/
theorem spec_C6 (db : DbTables) (table_name : String) (y : Int) :
    (∀ fault, data_already_exist db fault table_name none = false)
    ∧ (data_already_exist db none table_name (some y) = true ↔
        ∃ rs, findTable db table_name = some rs ∧ ∃ r ∈ rs, rowYearIs r y = true)
    ∧ (∀ e, data_already_exist db (some e) table_name (some y) = false)
    ∧ (findTable db table_name = none →
        data_already_exist db none table_name (some y) = false) := by
  refine ⟨fun fault => rfl, ?_, fun e => rfl, ?_⟩
  · cases h : findTable db table_name with
    | none => simp [data_already_exist, execExistsQuery, h]
    | some rs => simp [data_already_exist, execExistsQuery, h, List.any_eq_true]
  · intro h
    simp [data_already_exist, execExistsQuery, h]

/-- Witness for C6 at an empty store: the table is missing and the check
reports false. -/
theorem spec_C6_witness :
    findTable [] "egresos_pacientes" = none
    ∧ data_already_exist [] none "egresos_pacientes" (some 2019) = false :=
  ⟨rfl, (spec_C6 [] "egresos_pacientes" 2019).2.2.2 rfl⟩

/-- C7: load_data returns the parsed batch on success and the empty batch
with zero rows on a missing file or any other read error, never raising. -/
theorem spec_C7 (fs : String → ReadOutcome) (file_path : String) :
    (fs file_path = ReadOutcome.notFound → load_data fs file_path = emptyFrame)
    ∧ (fs file_path = ReadOutcome.readError → load_data fs file_path = emptyFrame)
    ∧ (∀ df, fs file_path = ReadOutcome.content df → load_data fs file_path = df)
    ∧ emptyFrame.rows.length = 0 := by
  refine ⟨fun h => ?_, fun h => ?_, fun df h => ?_, rfl⟩ <;> simp [load_data, h]

/-- Witness for C7 at a filesystem with no files. -/
theorem spec_C7_witness :
    ((fun _ => ReadOutcome.notFound : String → ReadOutcome) "data/x.csv"
        = ReadOutcome.notFound)
    ∧ load_data (fun _ => ReadOutcome.notFound) "data/x.csv" = emptyFrame :=
  ⟨rfl, (spec_C7 (fun _ => ReadOutcome.notFound) "data/x.csv").1 rfl⟩

/-- C8: the rename step is idempotent on schemas: renaming a list of
column names twice yields the same list as renaming it once. -/
theorem spec_C8 (cols : List String) :
    (cols.map renameColumn).map renameColumn = cols.map renameColumn := by
  induction cols with
  | nil => rfl
  | cons c cs ih => simp [renameColumn_idem, ih]

/-- C2: on a non-empty batch with N columns and threshold t, the rows of
the preprocessed batch are exactly the rows whose sentinel count is at
most the floor of N times t, in order, each coerced; and a row with
exactly that many sentinel cells passes the row filter. -/
theorem spec_C2 (df : DataFrame) (t : ℚ) (ht : 0 ≤ t)
    (hr : df.rows ≠ []) (hc : df.columns ≠ []) :
    ((preprocess_data df t).rows
        = (df.rows.filter
            (fun row => decide ((countStars row : Int) ≤ ⌊(df.columns.length : ℚ) * t⌋))).map
            (coerceRow (df.columns.map renameColumn)))
    ∧ ∀ row, (countStars row : Int) = ⌊(df.columns.length : ℚ) * t⌋ →
        keepRow df.columns.length t row = true := by
  have hfl := allowed_stars_eq_floor df.columns.length t ht
  constructor
  · rw [preprocess_data_not_empty df t hr hc]
    have hfilter : df.rows.filter (keepRow df.columns.length t)
        = df.rows.filter
            (fun row => decide ((countStars row : Int) ≤ ⌊(df.columns.length : ℚ) * t⌋)) := by
      apply List.filter_congr
      intro row _
      simp [keepRow, hfl]
    rw [hfilter]
  · intro row h
    simp [keepRow, hfl, h]

/-- Witness for C2: with two columns and threshold one half, the row with
two sentinel cells is dropped and the boundary row with one is kept. -/
theorem spec_C2_witness :
    ((0 : ℚ) ≤ mkRat 1 2 ∧ dfC2.rows ≠ [] ∧ dfC2.columns ≠ [])
    ∧ (preprocess_data dfC2 (mkRat 1 2)).rows
        = (dfC2.rows.filter
            (fun row =>
              decide ((countStars row : Int) ≤ ⌊(dfC2.columns.length : ℚ) * mkRat 1 2⌋))).map
            (coerceRow (dfC2.columns.map renameColumn)) :=
  ⟨⟨by decide, by decide, by decide⟩,
   (spec_C2 dfC2 (mkRat 1 2) (by decide) (by decide) (by decide)).1⟩

/-- C3: after preprocessing a non-empty rectangular batch, every cell of a
designated integer column is an integer (in particular never the missing
value), and a cell whose value has no numeric reading is coerced to the
integer zero rather than an error. -/
theorem spec_C3 (df : DataFrame) (t : ℚ)
    (hwf : ∀ r ∈ df.rows, r.length = df.columns.length)
    (hr : df.rows ≠ []) (hc : df.columns ≠ []) :
    (∀ row ∈ (preprocess_data df t).rows, ∀ j, j < row.length →
        (preprocess_data df t).columns.getD j "" ∈ int_columns_to_convert →
        (∃ n : Int, row.getD j Cell.nan = Cell.int n) ∧ row.getD j Cell.nan ≠ Cell.nan)
    ∧ (∀ c : Cell, cellNumeric c = none → coerceCell c = Cell.int 0) := by
  rw [preprocess_data_not_empty df t hr hc]
  constructor
  · intro row hrow j hj hmem
    rcases List.mem_map.mp hrow with ⟨r, hrfil, hreq⟩
    subst hreq
    have hrin : r ∈ df.rows := List.mem_of_mem_filter hrfil
    have hlen : r.length = df.columns.length := hwf r hrin
    have hjlen := coerceRow_length (df.columns.map renameColumn) r
    have h1 : j < (df.columns.map renameColumn).length := by
      rw [List.length_map]
      omega
    have h2 : j < r.length := by omega
    rw [coerceRow_getD _ _ _ h1 h2]
    rw [if_pos (contains_of_mem hmem)]
    have hint : ∃ n : Int, coerceCell (r.getD j Cell.nan) = Cell.int n := by
      unfold coerceCell
      cases h : cellNumeric (r.getD j Cell.nan) with
      | none => exact ⟨0, rfl⟩
      | some n => exact ⟨n, rfl⟩
    rcases hint with ⟨n, hn⟩
    rw [hn]
    exact ⟨⟨n, rfl⟩, by simp⟩
  · intro c h
    simp [coerceCell, h]

/-- Witness for C3: the non-numeric cell of the ANO_EGRESO column becomes
the integer zero. -/
theorem spec_C3_witness :
    (dfC3.rows ≠ [] ∧ dfC3.columns ≠ [] ∧ ∀ r ∈ dfC3.rows, r.length = dfC3.columns.length)
    ∧ ∃ n : Int, ([Cell.int 0, Cell.str "v"] : List Cell).getD 0 Cell.nan = Cell.int n :=
  ⟨⟨by decide, by decide, by decide⟩,
   ((spec_C3 dfC3 (mkRat 1 2) (by decide) (by decide) (by decide)).1
     [Cell.int 0, Cell.str "v"] (by decide) 0 (by decide) (by decide)).1⟩

/-- C9: for every rectangular batch, preprocessing preserves the column
count, never adds rows, and keeps the surviving rows in their input order:
the output rows are an order-preserving selection of the input rows, each
transformed cell-wise. -/
theorem spec_C9 (df : DataFrame) (t : ℚ)
    (hwf : ∀ r ∈ df.rows, r.length = df.columns.length) :
    (preprocess_data df t).columns.length = df.columns.length
    ∧ (preprocess_data df t).rows.length ≤ df.rows.length
    ∧ ∃ kept, List.Sublist kept df.rows
        ∧ (preprocess_data df t).rows = kept.map (coerceRow (df.columns.map renameColumn)) := by
  by_cases hr : df.rows = []
  · have he : df.empty = true := by simp [DataFrame.empty, hr]
    have hpp : preprocess_data df t = df := by simp [preprocess_data, he]
    exact ⟨by rw [hpp], by rw [hpp], [], List.nil_sublist _, by rw [hpp, hr]; rfl⟩
  · by_cases hc : df.columns = []
    · have he : df.empty = true := by simp [DataFrame.empty, hc]
      have hpp : preprocess_data df t = df := by simp [preprocess_data, he]
      refine ⟨by rw [hpp], by rw [hpp], df.rows, List.Sublist.refl _, ?_⟩
      rw [hpp]
      have hmap : df.rows.map (coerceRow (df.columns.map renameColumn)) = df.rows := by
        conv_rhs => rw [← List.map_id df.rows]
        apply List.map_congr_left
        intro r hrin
        have hlen : r.length = 0 := by rw [hwf r hrin, hc]; rfl
        rw [List.length_eq_zero.mp hlen, hc]
        rfl
      exact hmap.symm
    · rw [preprocess_data_not_empty df t hr hc]
      refine ⟨List.length_map _ _, ?_,
        df.rows.filter (keepRow df.columns.length t), List.filter_sublist _, rfl⟩
      rw [List.length_map]
      exact List.length_filter_le _ _

/-- Witness for C9 on the boundary batch. -/
theorem spec_C9_witness :
    (∀ r ∈ dfC2.rows, r.length = dfC2.columns.length)
    ∧ (preprocess_data dfC2 (mkRat 1 2)).columns.length = dfC2.columns.length :=
  ⟨by decide, (spec_C9 dfC2 (mkRat 1 2) (by decide)).1⟩

/-- C10: on a non-empty rectangular batch the output schema is the renamed
input schema, the output rows are the kept rows coerced in order, and in a
kept row every cell whose renamed column is not one of the four designated
columns is unchanged by the coercion. -/
theorem spec_C10 (df : DataFrame) (t : ℚ)
    (hwf : ∀ r ∈ df.rows, r.length = df.columns.length)
    (hr : df.rows ≠ []) (hc : df.columns ≠ []) :
    (preprocess_data df t).columns = df.columns.map renameColumn
    ∧ (preprocess_data df t).rows
        = (df.rows.filter (keepRow df.columns.length t)).map
            (coerceRow (df.columns.map renameColumn))
    ∧ ∀ r ∈ df.rows, keepRow df.columns.length t r = true → ∀ j, j < r.length →
        (df.columns.map renameColumn).getD j "" ∉ int_columns_to_convert →
        (coerceRow (df.columns.map renameColumn) r).getD j Cell.nan = r.getD j Cell.nan := by
  rw [preprocess_data_not_empty df t hr hc]
  refine ⟨rfl, rfl, ?_⟩
  intro r hrin _ j hj hnot
  have h1 : j < (df.columns.map renameColumn).length := by
    rw [List.length_map, ← hwf r hrin]
    exact hj
  rw [coerceRow_getD _ _ _ h1 hj,
    if_neg (by rw [not_contains_of_not_mem hnot]; exact Bool.false_ne_true)]

/-- Witness for C10: the cell of the pass-through column Y keeps its
value while only DIAS_ESTADIA is renamed and coerced. -/
theorem spec_C10_witness :
    ((∀ r ∈ dfC10.rows, r.length = dfC10.columns.length)
      ∧ dfC10.rows ≠ [] ∧ dfC10.columns ≠ []
      ∧ [Cell.str "7", Cell.str "keep"] ∈ dfC10.rows
      ∧ keepRow dfC10.columns.length (mkRat 1 2) [Cell.str "7", Cell.str "keep"] = true
      ∧ (dfC10.columns.map renameColumn).getD 1 "" ∉ int_columns_to_convert)
    ∧ (coerceRow (dfC10.columns.map renameColumn) [Cell.str "7", Cell.str "keep"]).getD 1 Cell.nan
        = ([Cell.str "7", Cell.str "keep"] : List Cell).getD 1 Cell.nan :=
  ⟨⟨by decide, by decide, by decide, by decide, by decide, by decide⟩,
   (spec_C10 dfC10 (mkRat 1 2) (by decide) (by decide) (by decide)).2.2
     [Cell.str "7", Cell.str "keep"] (by decide) (by decide) 1 (by decide) (by decide)⟩

/-- C1 counterexample: in a run over a directory holding the 2019 and 2018
files, the existence check for the 2019 file reports true (the year is
skipped), yet the row count for 2019 grows from one to two, because the
processed 2018 file itself carries rows whose ANO_EGRESO is 2019. -/
theorem spec_C1_counterexample :
    matchesPattern "EGRE_DATOS_ABIERTOS_2019.csv" = true
    ∧ extract_year_from_path ("data" ++ "/" ++ "EGRE_DATOS_ABIERTOS_2019.csv") = some 2019
    ∧ data_already_exist dbC1 none "egresos_pacientes" (some 2019) = true
    ∧ countYear dbC1 "egresos_pacientes" 2019 = 1
    ∧ countYear (runDriver envC1 "egresos_pacientes" dbC1 filesC1).1
        "egresos_pacientes" 2019 = 2 := by decide

/-- C1 amended: when the existence check of a file reports that the year
extracted from it is already present, that file's processing step loads,
preprocesses and persists nothing, returns the store unchanged, and so
leaves the row count of that year unchanged. -/
theorem spec_C1_amended (env : Env) (table_name : String) (db : DbTables)
    (filename : String) (y : Int)
    (hy : extract_year_from_path (env.dataDir ++ "/" ++ filename) = some y)
    (hex : data_already_exist db (env.fault filename) table_name (some y) = true) :
    processFile env table_name db filename = ⟨db, false, false, false⟩
    ∧ countYear (processFile env table_name db filename).db table_name y
        = countYear db table_name y := by
  have h : processFile env table_name db filename = ⟨db, false, false, false⟩ := by
    simp only [processFile]
    rw [hy]
    simp [hex]
  exact ⟨h, by rw [h]⟩

/-- Witness for C1 amended: the 2019 file is skipped whole against the
store already holding a 2019 row. -/
theorem spec_C1_witness :
    (extract_year_from_path ("data" ++ "/" ++ "EGRE_DATOS_ABIERTOS_2019.csv") = some 2019
      ∧ data_already_exist dbC1 (envC1.fault "EGRE_DATOS_ABIERTOS_2019.csv")
          "egresos_pacientes" (some 2019) = true)
    ∧ processFile envC1 "egresos_pacientes" dbC1 "EGRE_DATOS_ABIERTOS_2019.csv"
        = ⟨dbC1, false, false, false⟩ :=
  ⟨⟨by decide, by decide⟩,
   (spec_C1_amended envC1 "egresos_pacientes" dbC1 "EGRE_DATOS_ABIERTOS_2019.csv" 2019
     (by decide) (by decide)).1⟩
